import Mathlib

/-!
Verification of the cart-state synchronization subsystem of the 2M perfume
storefront (React frontend).

The development shallowly embeds the cart persistence layer
(`localStorage` + the `cartUpdated` broadcast event), the checkout
quantity/subtotal engine, the checkout and contact form submission flows,
and the notification scheduler, as executable Lean definitions translated
from the JavaScript source files:

  * `Frontend/src/components/products.jsx` (catalog: `addCart`, the
    persist-on-change effect),
  * `Frontend/src/components/cart.jsx` (cart indicator: `loadCartFromStorage`)
    and the notification module (`useNotifications`),
  * the checkout component (`loadCartFromStorage`, `saveCartToStorage`,
    `remove`, `decrease`, the subtotal loop, `validateCheckoutForm`, `order`),
  * `Frontend/src/components/contact_input.jsx` (`validateForm`, `addContact`).

Modelling conventions:

  * JavaScript numbers are modelled as rationals (`ℚ`), with `NaN`
    represented explicitly where the code can produce it (`Option`, or a
    dedicated constructor).
  * `JSON.stringify` / `JSON.parse` are modelled at the level of their
    results: a string stored in `localStorage` is represented by its parse
    outcome — a structured `Json` value when `JSON.parse` would succeed on
    it, or `StoredString.malformed` carrying the raw text when `JSON.parse`
    would throw.  Under this representation, parsing the serialization of a
    JSON-representable value returns that value.
  * React state setters (`setCart`, …) become explicit state passing;
    `window.dispatchEvent(new Event("cartUpdated"))` becomes a counter of
    dispatched `cartUpdated` events in `BrowserState`.
  * `async`/`await` with `try`/`catch`/`finally` becomes a function of the
    pre-state and of the outcome of the single awaited remote call: the
    `await` either resolves to a response or rejects into the `catch`
    branch, and the `finally` block runs on every path.
-/

/-- A JSON value: the possible results of a successful `JSON.parse`. -/
inductive Json where
  | null
  | bool (b : Bool)
  | num (q : ℚ)
  | str (s : String)
  | arr (elems : List Json)
  | obj (fields : List (String × Json))

/-- A string held in `localStorage`, represented by its `JSON.parse`
outcome: `malformed s` stands for a raw string `s` that `JSON.parse`
throws on, `wellFormed j` for a string that parses to the JSON value `j`. -/
inductive StoredString where
  | malformed (s : String)
  | wellFormed (j : Json)

/-- The key-value contents of `localStorage`, as an association list with
the most recent binding for a key in front. -/
abbrev Storage := List (String × StoredString)

/-- Model of `localStorage.getItem(key)`: the value of the most recent
binding of `key`, or `none` when the key is absent. -/
def Storage.getItem (st : Storage) (key : String) : Option StoredString :=
  match st.find? (fun kv => kv.1 == key) with
  | some kv => some kv.2
  | none => none

/-- Model of `localStorage.setItem(key, value)`: bind `key` to `value`,
shadowing and dropping any previous binding. -/
def Storage.setItem (st : Storage) (key : String) (v : StoredString) : Storage :=
  (key, v) :: st.filter (fun kv => kv.1 != key)

/-- The browser-global state the cart subsystem touches: the durable
`localStorage` contents and the number of `cartUpdated` events dispatched
on `window` so far. -/
structure BrowserState where
  storage : Storage
  cartUpdatedCount : Nat

/-- Checkout component, `saveCartToStorage(updatedCart)`
(the `setCart` local-state update is returned to the caller separately by
the functions that use it):

    localStorage.setItem("cart", JSON.stringify(updatedCart));
    window.dispatchEvent(new Event("cartUpdated"));

The cart array is given by the JSON image of its serialization. -/
def saveCartToStorage (updatedCart : List Json) (bs : BrowserState) : BrowserState :=
  { storage := bs.storage.setItem "cart" (.wellFormed (.arr updatedCart)),
    cartUpdatedCount := bs.cartUpdatedCount + 1 }

/-- Checkout component and cart indicator, `loadCartFromStorage()`:

    const savedCart = localStorage.getItem("cart");
    if (savedCart) {
      try {
        const parsedCart = JSON.parse(savedCart);
        setCart(Array.isArray(parsedCart) ? parsedCart : []);
      } catch (error) { ... setCart([]); }
    } else { setCart([]); }

A stored string on which `JSON.parse` throws lands in the `catch` branch.
(The empty string is falsy in JavaScript and takes the `else` branch
instead, but it is also unparseable, so both readings yield `[]`.)
Note the code checks `Array.isArray` only: the elements of a parsed array
are not validated. -/
def loadCartFromStorage (bs : BrowserState) : List Json :=
  match bs.storage.getItem "cart" with
  | none => []
  | some (.malformed _) => []
  | some (.wellFormed j) =>
    match j with
    | .arr elems => elems
    | _ => []

/-- Catalog component (`products.jsx`), the persist-on-change effect:

    useEffect(() => {
      if (cart.length > 0) {
        localStorage.setItem("cart", JSON.stringify(cart));
        window.dispatchEvent(new CustomEvent("cartUpdated"));
      }
    }, [cart]);

Note the guard: an empty cart is neither persisted nor broadcast. -/
def productsPersistEffect (cart : List Json) (bs : BrowserState) : BrowserState :=
  if cart.length > 0 then
    { storage := bs.storage.setItem "cart" (.wellFormed (.arr cart)),
      cartUpdatedCount := bs.cartUpdatedCount + 1 }
  else bs

theorem Storage.getItem_setItem (st : Storage) (key : String) (v : StoredString) :
    (st.setItem key v).getItem key = some v := by
  simp [Storage.getItem, Storage.setItem, List.find?]

example : loadCartFromStorage (saveCartToStorage [Json.num 1] ⟨[], 0⟩) = [Json.num 1] := by
  simp [loadCartFromStorage, saveCartToStorage, Storage.getItem_setItem]

/-- A JavaScript value in a position where the code may coerce it to a
number (the `price` field of a cart line, which the catalog data source
delivers as a string or a number). -/
inductive JsValue where
  | str (s : String)
  | num (q : ℚ)
  | nullv
  | undef
  | boolv (b : Bool)
  deriving DecidableEq, Repr

/-- JavaScript whitespace, for `String.prototype.trim` and the regex
class `\s`: space, tab, line feed, carriage return.  (The exotic Unicode
space classes also included by JavaScript do not occur in this
development and are omitted.) -/
def isJsSpace (c : Char) : Bool :=
  c = ' ' || c = '\t' || c = '\n' || c = '\r'

/-- Model of `String.prototype.trim`: strip leading and trailing
whitespace. -/
def jsTrim (s : String) : String :=
  ⟨((s.data.dropWhile isJsSpace).reverse.dropWhile isJsSpace).reverse⟩

/-- Value of a string of decimal digits, `none` if any character is not
a decimal digit. -/
def digitsToNat? (cs : List Char) : Option ℕ :=
  cs.foldl
    (fun acc c =>
      match acc with
      | none => none
      | some n => if c.isDigit then some (n * 10 + (c.toNat - 48)) else none)
    (some 0)

/-- Model of the string case of the JavaScript `Number(·)` coercion,
with `none` standing for `NaN`.  A trimmed-empty string coerces to `0`;
a string of decimal digits coerces to its value; the model maps every
other string to `NaN` (signs, fractions and exotic numeric formats do not
occur in the carts this development reasons about). -/
def strToNumber (s : String) : Option ℚ :=
  let t := (jsTrim s).data
  if t.isEmpty then some 0
  else match digitsToNat? t with
    | some n => some (n : ℚ)
    | none => none

/-- The JavaScript `Number(·)` coercion, with `none` standing for `NaN`. -/
def jsToNumber : JsValue → Option ℚ
  | .str s => strToNumber s
  | .num q => some q
  | .nullv => some 0
  | .undef => none
  | .boolv b => some (if b then 1 else 0)

/-- The expression `Number(v) || 0`: `NaN` (`none`) is falsy and yields
`0`; the number `0` is falsy and also yields `0`; every other number is
returned unchanged. -/
def numberOr0 (v : JsValue) : ℚ :=
  match jsToNumber v with
  | none => 0
  | some q => q

/-- The `quantity` field of a cart line: absent (`undefined`, as on lines
appended by the catalog, whose product records carry no quantity field),
`NaN` (producible by the `++`/`--` operators on `undefined`), or a
number (an integer in every state this code produces). -/
inductive Qty where
  | undef
  | nan
  | num (n : ℤ)
  deriving DecidableEq, Repr

/-- The JavaScript decrement `quantity--` as it acts on the stored field:
`undefined` decrements to `NaN`, `NaN` stays `NaN`. -/
def Qty.dec : Qty → Qty
  | .undef => .nan
  | .nan => .nan
  | .num n => .num (n - 1)

/-- The JavaScript comparison `quantity < 1`: `undefined` and `NaN`
compare false against everything. -/
def Qty.ltOne : Qty → Bool
  | .undef => false
  | .nan => false
  | .num n => n < 1

/-- The expression `quantity || 1` in the subtotal loop: `undefined`,
`NaN` and `0` are falsy and default to `1`. -/
def Qty.orOne : Qty → ℚ
  | .undef => 1
  | .nan => 1
  | .num n => if n = 0 then 1 else (n : ℚ)

/-- True exactly for a numeric quantity strictly below `1` (the values
the spec forbids in a persisted cart; `undefined`/`NaN` are not numbers
below one). -/
def Qty.belowOne : Qty → Bool
  | .num n => n < 1
  | _ => false

/-- One line of the cart as the checkout engine reads it: the fields of
the product record it accesses, plus the quantity field.  Display-only
fields (image references, description) are inert and omitted. -/
structure CartLine where
  name : String
  price : JsValue
  quantity : Qty
  deriving DecidableEq, Repr

/-- Checkout component, the subtotal loop:

    let subtotal = 0;
    for (let i = 0; i < cart.length; i++) {
      const price = Number(cart[i].price) || 0;
      const qty = cart[i].quantity || 1;
      subtotal += price * qty;
    }
-/
def subtotal (cart : List CartLine) : ℚ :=
  cart.foldl (fun acc item => acc + numberOr0 item.price * item.quantity.orOne) 0

/-- The rendered total, `(subtotal + 20).toFixed(2)`: the subtotal plus
the fixed shipping constant 20. -/
def orderTotal (cart : List CartLine) : ℚ :=
  subtotal cart + 20

/-- Checkout component, `remove(index)` (its cart transformation; the
resulting array is passed to `saveCartToStorage`):

    const updatedCart = cart.filter((_, i) => i !== index);
-/
def removeLine (cart : List CartLine) (index : ℕ) : List CartLine :=
  (cart.enum.filter (fun p => p.1 != index)).map (fun p => p.2)

/-- Checkout component, `decrease(index)` (the cart value it persists):

    const updatedCart = [...cart];
    updatedCart[index].quantity--;
    if (updatedCart[index].quantity < 1) { remove(index); }
    else { saveCartToStorage(updatedCart); }

The spread copy is shallow, so the decrement mutates the line object
shared with `cart`; `remove(index)` then filters that same mutated array,
so the branch persists `removeLine updatedCart index`.  An out-of-range
index makes `updatedCart[index].quantity` a property access on
`undefined`, which throws: that case is `none`. -/
def decrease (cart : List CartLine) (index : ℕ) : Option (List CartLine) :=
  match cart[index]? with
  | none => none
  | some line =>
    let updatedCart := cart.set index { line with quantity := line.quantity.dec }
    if (line.quantity.dec).ltOne then some (removeLine updatedCart index)
    else some updatedCart

/-- A product record as delivered by the catalog data source, in the
fields the cart subsystem reads.  It carries no quantity field. -/
structure Product where
  name : String
  price : JsValue
  deriving DecidableEq, Repr

/-- A product record viewed as the cart line it becomes when appended to
the cart: reading its missing `quantity` field yields `undefined`. -/
def productToCartLine (p : Product) : CartLine :=
  { name := p.name, price := p.price, quantity := .undef }

/-- Catalog component, `addCart(product)`:

    setCart((prev) => [...prev, product]);

The product object itself is appended as the new cart line. -/
def addCart (cart : List CartLine) (p : Product) : List CartLine :=
  cart ++ [productToCartLine p]

example : subtotal [⟨"Rose", .str "100", .num 2⟩] = 200 := by
  have h : jsToNumber (.str "100") = some 100 := by decide
  simp [subtotal, numberOr0, h, Qty.orOne]
  norm_num
example : orderTotal [⟨"Rose", .str "100", .num 2⟩] = 220 := by
  have h : jsToNumber (.str "100") = some 100 := by decide
  simp [orderTotal, subtotal, numberOr0, h, Qty.orOne]
  norm_num
example : decrease [⟨"Rose", .str "100", .num 1⟩, ⟨"Oud", .num 50, .num 2⟩] 0 =
    some [⟨"Oud", .num 50, .num 2⟩] := by decide
example : decrease [⟨"Rose", .str "100", .num 3⟩] 0 =
    some [⟨"Rose", .str "100", .num 2⟩] := by decide

/-- One entry of the notification module's active list:
`{ id, message, type, duration }` (the `type` field is named `kind` here
because `type` is reserved in Lean).  Ids are JavaScript numbers
(`Date.now() + Math.random()`), modelled as rationals. -/
structure NotificationItem where
  id : ℚ
  message : String
  kind : String
  duration : ℚ
  deriving DecidableEq, Repr

/-- Notification module, `addNotification(message, type, duration)` with
the freshly generated id passed explicitly:

    const newNotification = { id, message, type, duration };
    setNotifications(prev => [...prev, newNotification]);
-/
def addNotification (notifications : List NotificationItem) (id : ℚ)
    (message kind : String) (duration : ℚ) : List NotificationItem :=
  notifications ++ [{ id := id, message := message, kind := kind, duration := duration }]

/-- Notification module, `removeNotification(id)`.  Both the auto-expiry
timer and a manual dismissal resolve to this same update:

    setNotifications(prev => prev.filter(notification => notification.id !== id));
-/
def removeNotification (id : ℚ) (notifications : List NotificationItem) :
    List NotificationItem :=
  notifications.filter (fun notification => notification.id != id)

/-- The validation result object returned by `validateCheckoutForm` /
`validateForm`.  The JavaScript objects carry `missingFields` or `error`
only on some paths; absence is modelled as `[]` / `none`, matching the
falsiness checks at the use sites. -/
structure Validation where
  isValid : Bool
  missingFields : List String
  error : Option String
  deriving DecidableEq, Repr

/-- A character of the class `[\d\s\-\(\)]` of the phone regex. -/
def isPhoneChar (c : Char) : Bool :=
  c.isDigit || isJsSpace c || c = '-' || c = '(' || c = ')'

/-- The phone regex test `/^[+]?[\d\s\-\(\)]+$/.test(s)`: an optional
leading plus sign followed by one or more digits, whitespace, hyphens or
parentheses. -/
def phoneRegexTest (s : String) : Bool :=
  let rest := if s.data.head? = some '+' then s.data.tail else s.data
  !rest.isEmpty && rest.all isPhoneChar

/-- The per-render state of the checkout component that `order` touches:
the six billing fields, the cart, the submission guard `isLoading`, the
browser-global state, and the notifications shown so far (kind, message). -/
structure CheckoutState where
  fName : String
  lName : String
  adress : String
  phone : String
  building : String
  apart : String
  cart : List CartLine
  isLoading : Bool
  browser : BrowserState
  notifs : List (String × String)

/-- Checkout component, `validateCheckoutForm()`.  Note the order of the
checks: the phone-format check and the empty-cart check both return
before the missing-fields check does. -/
def validateCheckoutForm (st : CheckoutState) : Validation :=
  let missingFields :=
    (if jsTrim st.fName = "" then ["First Name"] else []) ++
    (if jsTrim st.lName = "" then ["Last Name"] else []) ++
    (if jsTrim st.adress = "" then ["Address"] else []) ++
    (if jsTrim st.phone = "" then ["Phone Number"] else []) ++
    (if jsTrim st.building = "" then ["Building Number"] else []) ++
    (if jsTrim st.apart = "" then ["Apartment Number"] else [])
  if jsTrim st.phone != "" && !phoneRegexTest st.phone then
    { isValid := false, missingFields := [],
      error := some "Please enter a valid phone number" }
  else if st.cart.length = 0 then
    { isValid := false, missingFields := [],
      error := some "Your cart is empty. Please add items before checkout." }
  else if missingFields.length > 0 then
    { isValid := false, missingFields := missingFields, error := none }
  else
    { isValid := true, missingFields := [], error := none }

/-- The outcome of the single awaited `axios.post`: the promise resolves
with some status, or rejects with an error carrying a `response`, an
error carrying only a `request` (network failure), or any other thrown
value. -/
inductive RemoteOutcome where
  | resolved (status : ℕ)
  | errorResponse (status : ℕ)
  | errorRequest
  | errorOther
  deriving DecidableEq, Repr

/-- Result of running `order`: the post-state, whether the remote call
was reached, and the value of the submission guard at the moment the
call was issued. -/
structure OrderTrace where
  state : CheckoutState
  remoteCalled : Bool
  loadingAtCall : Bool

/-- Checkout component, `async function order()`.  The validation branch
returns before the remote call; otherwise `setIsLoading(true)` precedes
the `await`, the `try` body or the `catch` arms run according to the
outcome, and the `finally` block (`setIsLoading(false)`) runs on every
path that reaches the `try`. -/
def order (st : CheckoutState) (outcome : RemoteOutcome) : OrderTrace :=
  let validation := validateCheckoutForm st
  if validation.isValid = false then
    if validation.missingFields != [] then
      { state := { st with notifs := st.notifs ++ [("warning",
          "Please fill in the following required fields: " ++
            String.intercalate ", " validation.missingFields)] },
        remoteCalled := false, loadingAtCall := false }
    else
      match validation.error with
      | some e =>
        { state := { st with notifs := st.notifs ++ [("error", e)] },
          remoteCalled := false, loadingAtCall := false }
      | none =>
        { state := st, remoteCalled := false, loadingAtCall := false }
  else
    let st1 := { st with isLoading := true }
    let st2 :=
      match outcome with
      | .resolved status =>
        if status = 200 then
          { st1 with
            fName := "", lName := "", adress := "", phone := "",
            building := "", apart := "",
            browser := { storage := [],
                         cartUpdatedCount := st1.browser.cartUpdatedCount + 1 },
            cart := [],
            notifs := st1.notifs ++ [("success",
              "🎉 Order placed successfully! Thank you " ++ jsTrim st.fName ++
                " " ++ jsTrim st.lName ++
                "! Your order will be processed and delivered soon.")] }
        else
          { st1 with notifs := st1.notifs ++ [("error",
              "There was a problem with the server. Please try again later.")] }
      | .errorResponse status =>
        { st1 with notifs := st1.notifs ++ [("error",
            "Server error: " ++ toString status ++ ". Please try again later.")] }
      | .errorRequest =>
        { st1 with notifs := st1.notifs ++ [("error",
            "Network error. Please check your internet connection and try again.")] }
      | .errorOther =>
        { st1 with notifs := st1.notifs ++ [("error",
            "An unexpected error occurred. Please try again.")] }
    { state := { st2 with isLoading := false },
      remoteCalled := true, loadingAtCall := st1.isLoading }

/-- A character of the class `[^\s@]` of the email regex. -/
def isEmailAtomChar (c : Char) : Bool :=
  !isJsSpace c && c != '@'

/-- Split a character list at every occurrence of the at sign. -/
def splitAtSign (cs : List Char) : List (List Char) :=
  match cs with
  | [] => [[]]
  | c :: rest =>
    match splitAtSign rest with
    | [] => [[]]
    | r :: rs => if c = '@' then [] :: r :: rs else (c :: r) :: rs

/-- The email regex test `/^[^\s@]+@[^\s@]+\.[^\s@]+$/.test(s)`: exactly
one at sign; a nonempty local part without whitespace; a domain part
without whitespace containing a dot that has a nonempty segment on each
side. -/
def emailRegexTest (s : String) : Bool :=
  match splitAtSign s.data with
  | [localPart, domain] =>
    !localPart.isEmpty && localPart.all isEmailAtomChar &&
      (domain.all isEmailAtomChar &&
        (List.range domain.length).any
          (fun i => decide (0 < i) && decide (i + 1 < domain.length) &&
            (domain.getD i ' ' == '.')))
  | _ => false

/-- The per-render state of the contact component that `addContact`
touches. -/
structure ContactState where
  name : String
  email : String
  phone : String
  message : String
  isLoading : Bool
  notifs : List (String × String)
  deriving DecidableEq, Repr

/-- Contact component, `validateForm()`: missing-field collection, then
the email-format check, then the phone-format check, then the
missing-fields return. -/
def contactValidateForm (st : ContactState) : Validation :=
  let missingFields :=
    (if jsTrim st.name = "" then ["Name"] else []) ++
    (if jsTrim st.email = "" then ["Email"] else []) ++
    (if jsTrim st.phone = "" then ["Phone"] else []) ++
    (if jsTrim st.message = "" then ["Message"] else [])
  if jsTrim st.email != "" && !emailRegexTest st.email then
    { isValid := false, missingFields := [],
      error := some "Please enter a valid email address" }
  else if jsTrim st.phone != "" && !phoneRegexTest st.phone then
    { isValid := false, missingFields := [],
      error := some "Please enter a valid phone number" }
  else if missingFields.length > 0 then
    { isValid := false, missingFields := missingFields, error := none }
  else
    { isValid := true, missingFields := [], error := none }

/-- Result of running `addContact`, analogous to `OrderTrace`. -/
structure ContactTrace where
  state : ContactState
  remoteCalled : Bool
  loadingAtCall : Bool
  deriving DecidableEq, Repr

/-- Contact component, `async function addContact()`: same
validate / set-guard / await / branch / `finally`-release shape as
`order`, without any cart or storage effects. -/
def addContact (st : ContactState) (outcome : RemoteOutcome) : ContactTrace :=
  let validation := contactValidateForm st
  if validation.isValid = false then
    if validation.missingFields != [] then
      { state := { st with notifs := st.notifs ++ [("warning",
          "Please fill in the following required fields: " ++
            String.intercalate ", " validation.missingFields)] },
        remoteCalled := false, loadingAtCall := false }
    else
      match validation.error with
      | some e =>
        { state := { st with notifs := st.notifs ++ [("error", e)] },
          remoteCalled := false, loadingAtCall := false }
      | none =>
        { state := st, remoteCalled := false, loadingAtCall := false }
  else
    let st1 := { st with isLoading := true }
    let st2 :=
      match outcome with
      | .resolved status =>
        if status = 200 then
          { st1 with
            name := "", email := "", phone := "", message := "",
            notifs := st1.notifs ++ [("success",
              "Thank you " ++ jsTrim st.name ++
                "! Your message has been sent successfully. We\x27ll get back to you soon! 📧")] }
        else
          { st1 with notifs := st1.notifs ++ [("error",
              "There was a problem with the server. Please try again later.")] }
      | .errorResponse status =>
        { st1 with notifs := st1.notifs ++ [("error",
            "Server error: " ++ toString status ++ ". Please try again later.")] }
      | .errorRequest =>
        { st1 with notifs := st1.notifs ++ [("error",
            "Network error. Please check your internet connection and try again.")] }
      | .errorOther =>
        { st1 with notifs := st1.notifs ++ [("error",
            "An unexpected error occurred. Please try again.")] }
    { state := { st2 with isLoading := false },
      remoteCalled := true, loadingAtCall := st1.isLoading }

example : emailRegexTest "a@b.c" = true := by decide
example : emailRegexTest "a@bc" = false := by decide
example : emailRegexTest "a b@c.d" = false := by decide
example : emailRegexTest "a@b.c.d" = true := by decide
example : emailRegexTest "@b.c" = false := by decide
example : emailRegexTest "a@.c" = false := by decide
example : phoneRegexTest "+20 100-200(3)" = true := by decide
example : phoneRegexTest "abc" = false := by decide
example : phoneRegexTest "+" = false := by decide

theorem enumFrom_filter_out_lt (l : List CartLine) :
    ∀ (n i : ℕ), i < n →
      ((List.enumFrom n l).filter (fun p => p.1 != i)).map (fun p => p.2) = l := by
  induction l with
  | nil => intro n i _; rfl
  | cons a l ih =>
    intro n i hi
    have hne : (n != i) = true := by simp [bne_iff_ne]; omega
    simp only [List.enumFrom_cons, List.filter_cons, hne, if_true, List.map_cons]
    rw [ih (n + 1) i (by omega)]

theorem enumFrom_filter_out_ge (l : List CartLine) :
    ∀ (n i : ℕ), n ≤ i →
      ((List.enumFrom n l).filter (fun p => p.1 != i)).map (fun p => p.2) =
        l.eraseIdx (i - n) := by
  induction l with
  | nil => intro n i _; rfl
  | cons a l ih =>
    intro n i hi
    rw [List.enumFrom_cons]
    rcases Nat.eq_or_lt_of_le hi with heq | hlt
    · subst heq
      have hbe : (n != n) = false := by simp
      simp only [List.enumFrom_cons, List.filter_cons, hbe, if_false, Nat.sub_self,
        List.eraseIdx_zero]
      exact enumFrom_filter_out_lt l (n + 1) n (by omega)
    · have hne : (n != i) = true := by simp [bne_iff_ne]; omega
      simp only [List.enumFrom_cons, List.filter_cons, hne, if_true, List.map_cons]
      rw [ih (n + 1) i (by omega)]
      have hsub : i - n = (i - (n + 1)) + 1 := by omega
      rw [hsub, List.eraseIdx_cons_succ]

theorem removeLine_eq_eraseIdx (l : List CartLine) (i : ℕ) :
    removeLine l i = l.eraseIdx i := by
  have := enumFrom_filter_out_ge l 0 i (Nat.zero_le i)
  simpa [removeLine, List.enum] using this

theorem eraseIdx_set (l : List CartLine) :
    ∀ (i : ℕ) (x : CartLine), (l.set i x).eraseIdx i = l.eraseIdx i := by
  induction l with
  | nil => intro i x; rfl
  | cons a l ih =>
    intro i x
    cases i with
    | zero => rfl
    | succ i => simpa using ih i x

/-- C2: for every cart and every in-range position whose line has
quantity 1, `decrease` at that position removes the line entirely: the
persisted cart is the original with exactly that line cut out (one fewer
line, the others unchanged and in order), every remaining line comes from
the original cart, and if no original line had a numeric quantity below 1
then neither does any persisted line. -/
theorem decrease_at_quantity_one_removes_line
    (cart : List CartLine) (index : ℕ) (line : CartLine)
    (hline : cart[index]? = some line)
    (hqty : line.quantity = Qty.num 1) :
    decrease cart index = some (cart.take index ++ cart.drop (index + 1)) ∧
    (cart.take index ++ cart.drop (index + 1)).length + 1 = cart.length ∧
    (∀ l ∈ cart.take index ++ cart.drop (index + 1), l ∈ cart) ∧
    ((∀ l ∈ cart, l.quantity.belowOne = false) →
      ∀ l ∈ cart.take index ++ cart.drop (index + 1), l.quantity.belowOne = false) := by
  obtain ⟨hlt, -⟩ := List.getElem?_eq_some.mp hline
  have hmem : ∀ l ∈ cart.take index ++ cart.drop (index + 1), l ∈ cart := by
    intro l hl
    rcases List.mem_append.mp hl with h | h
    · exact List.take_subset index cart h
    · exact List.drop_subset (index + 1) cart h
  refine ⟨?_, ?_, hmem, fun hall l hl => hall l (hmem l hl)⟩
  · unfold decrease
    rw [hline]
    simp only [hqty, Qty.dec, Qty.ltOne]
    norm_num
    rw [removeLine_eq_eraseIdx, eraseIdx_set, List.eraseIdx_eq_take_drop_succ]
  · have h1 : (cart.take index).length = index := List.length_take_of_le (by omega)
    have h2 : (cart.drop (index + 1)).length = cart.length - (index + 1) :=
      List.length_drop (index + 1) cart
    simp only [List.length_append, h1, h2]
    omega

/-- A concrete two-line cart whose first line has quantity 1. -/
def sampleCartQtyOne : List CartLine :=
  [⟨"Rose", .str "100", .num 1⟩, ⟨"Oud", .num 50, .num 2⟩]

/-- Witness for C2 at a concrete cart: decreasing the first line, which
has quantity 1, removes it and leaves the second line untouched. -/
theorem decrease_at_quantity_one_removes_line_witness :
    decrease sampleCartQtyOne 0 =
      some (sampleCartQtyOne.take 0 ++ sampleCartQtyOne.drop 1) ∧
    (sampleCartQtyOne.take 0 ++ sampleCartQtyOne.drop 1).length + 1 =
      sampleCartQtyOne.length ∧
    (∀ l ∈ sampleCartQtyOne.take 0 ++ sampleCartQtyOne.drop 1, l ∈ sampleCartQtyOne) ∧
    ((∀ l ∈ sampleCartQtyOne, l.quantity.belowOne = false) →
      ∀ l ∈ sampleCartQtyOne.take 0 ++ sampleCartQtyOne.drop 1,
        l.quantity.belowOne = false) :=
  decrease_at_quantity_one_removes_line sampleCartQtyOne 0
    ⟨"Rose", .str "100", .num 1⟩ (by decide) (by decide)

/-- C8: writing any JSON-representable cart and then reading it back
yields the same sequence of lines, for every prior browser state. -/
theorem write_read_roundtrip (cart : List Json) (bs : BrowserState) :
    loadCartFromStorage (saveCartToStorage cart bs) = cart := by
  simp [loadCartFromStorage, saveCartToStorage, Storage.getItem_setItem]

/-- A browser state holding a stale nonempty persisted cart and no
pending broadcasts. -/
def staleCartState : BrowserState :=
  { storage := [("cart", .wellFormed (.arr [Json.str "stale"]))],
    cartUpdatedCount := 0 }

/-- Counterexample to C1 as stated: the catalog persist-on-change path
applied to the empty cart does not persist it and does not broadcast —
the stored cart stays the stale nonempty one and no event is dispatched. -/
theorem products_effect_skips_empty_cart :
    productsPersistEffect [] staleCartState = staleCartState ∧
    (productsPersistEffect [] staleCartState).storage.getItem "cart" =
      some (.wellFormed (.arr [Json.str "stale"])) ∧
    (productsPersistEffect [] staleCartState).cartUpdatedCount = 0 := by
  exact ⟨rfl, rfl, rfl⟩

/-- C1 amended: the checkout writer `saveCartToStorage` durably stores
every cart value, the empty cart included, under the key "cart" and then
dispatches one cartUpdated broadcast; the catalog persist-on-change
effect does so only for nonempty carts and is the identity (no store, no
broadcast) on the empty cart. -/
theorem cart_write_persists_and_broadcasts_amended :
    (∀ (cart : List Json) (bs : BrowserState),
      (saveCartToStorage cart bs).storage.getItem "cart" =
        some (.wellFormed (.arr cart)) ∧
      (saveCartToStorage cart bs).cartUpdatedCount = bs.cartUpdatedCount + 1) ∧
    (∀ bs : BrowserState, productsPersistEffect [] bs = bs) ∧
    (∀ (cart : List Json) (bs : BrowserState), cart ≠ [] →
      (productsPersistEffect cart bs).storage.getItem "cart" =
        some (.wellFormed (.arr cart)) ∧
      (productsPersistEffect cart bs).cartUpdatedCount = bs.cartUpdatedCount + 1) := by
  refine ⟨fun cart bs => ⟨?_, rfl⟩, fun bs => rfl, fun cart bs hne => ?_⟩
  · exact Storage.getItem_setItem bs.storage "cart" (.wellFormed (.arr cart))
  · have hpos : cart.length > 0 := List.length_pos.mpr hne
    unfold productsPersistEffect
    rw [if_pos hpos]
    exact ⟨Storage.getItem_setItem bs.storage "cart" (.wellFormed (.arr cart)), rfl⟩

/-- Witness for the amended C1: a one-line cart is persisted and
broadcast by the catalog effect, and the empty cart is persisted and
broadcast by `saveCartToStorage`. -/
theorem cart_write_persists_and_broadcasts_amended_witness :
    ((saveCartToStorage [] staleCartState).storage.getItem "cart" =
      some (.wellFormed (.arr [])) ∧
     (saveCartToStorage [] staleCartState).cartUpdatedCount =
      staleCartState.cartUpdatedCount + 1) ∧
    ((productsPersistEffect [Json.num 7] staleCartState).storage.getItem "cart" =
      some (.wellFormed (.arr [Json.num 7])) ∧
     (productsPersistEffect [Json.num 7] staleCartState).cartUpdatedCount =
      staleCartState.cartUpdatedCount + 1) :=
  ⟨cart_write_persists_and_broadcasts_amended.1 [] staleCartState,
   cart_write_persists_and_broadcasts_amended.2.2 [Json.num 7] staleCartState
     (by intro h; exact List.noConfusion h)⟩

/-- A browser state whose persisted "cart" value parses to an array that
is not a sequence of CartLine records (its elements are bare numbers). -/
def junkCartState : BrowserState :=
  { storage := [("cart", .wellFormed (.arr [Json.num 1, Json.num 2, Json.num 3]))],
    cartUpdatedCount := 0 }

/-- Modelled from the spec (§3): a CartLine is a record carrying identity
fields copied from the catalog entry and a quantity, so at the very least
it is a JSON object.  The code contains no such check; this predicate
exists only to state what a valid sequence of CartLine would require. -/
def isCartLineJsonSpec : Json → Bool
  | .obj _ => true
  | _ => false

/-- Counterexample to C3 as stated: a stored payload that parses to the
array of bare numbers 1, 2, 3 is not a valid sequence of CartLine, yet
`read()` returns it as-is instead of the empty cart. -/
theorem read_returns_unvalidated_array :
    loadCartFromStorage junkCartState = [Json.num 1, Json.num 2, Json.num 3] ∧
    (∃ j ∈ loadCartFromStorage junkCartState, isCartLineJsonSpec j = false) ∧
    loadCartFromStorage junkCartState ≠ [] := by
  have h : loadCartFromStorage junkCartState = [Json.num 1, Json.num 2, Json.num 3] := rfl
  refine ⟨h, ⟨Json.num 1, ?_, rfl⟩, ?_⟩
  · rw [h]; exact List.mem_cons_self _ _
  · rw [h]; exact List.cons_ne_nil _ _

/-- C3 amended: `read()` never faults and returns the empty cart when the
stored value is absent, when it is a string `JSON.parse` throws on, and
when it parses to a non-array; but any parsed array is returned as-is,
with no validation of its elements against the CartLine shape. -/
theorem read_parse_failure_yields_empty_amended (bs : BrowserState) :
    (bs.storage.getItem "cart" = none → loadCartFromStorage bs = []) ∧
    (∀ s, bs.storage.getItem "cart" = some (.malformed s) →
      loadCartFromStorage bs = []) ∧
    (∀ j, bs.storage.getItem "cart" = some (.wellFormed j) →
      (∀ elems, j ≠ .arr elems) → loadCartFromStorage bs = []) ∧
    (∀ elems, bs.storage.getItem "cart" = some (.wellFormed (.arr elems)) →
      loadCartFromStorage bs = elems) := by
  refine ⟨fun h => ?_, fun s h => ?_, fun j h hj => ?_, fun elems h => ?_⟩
  · rw [loadCartFromStorage, h]
  · rw [loadCartFromStorage, h]
  · rw [loadCartFromStorage, h]
    cases j with
    | arr elems => exact absurd rfl (hj elems)
    | null => rfl
    | bool b => rfl
    | num q => rfl
    | str s => rfl
    | obj fields => rfl
  · rw [loadCartFromStorage, h]

/-- Witness for the amended C3 at concrete stores: an absent key, an
unparseable payload, a parsed non-array and a parsed array. -/
theorem read_parse_failure_yields_empty_amended_witness :
    loadCartFromStorage ⟨[], 0⟩ = [] ∧
    loadCartFromStorage ⟨[("cart", .malformed "not json")], 0⟩ = [] ∧
    loadCartFromStorage ⟨[("cart", .wellFormed (.num 5))], 0⟩ = [] ∧
    loadCartFromStorage junkCartState = [Json.num 1, Json.num 2, Json.num 3] :=
  ⟨(read_parse_failure_yields_empty_amended ⟨[], 0⟩).1 rfl,
   (read_parse_failure_yields_empty_amended
      ⟨[("cart", .malformed "not json")], 0⟩).2.1 "not json" rfl,
   (read_parse_failure_yields_empty_amended
      ⟨[("cart", .wellFormed (.num 5))], 0⟩).2.2.1 (.num 5) rfl
      (fun _elems h => Json.noConfusion h),
   (read_parse_failure_yields_empty_amended junkCartState).2.2.2
      [Json.num 1, Json.num 2, Json.num 3] rfl⟩

/-- C4: the checkout engine computes the subtotal by accumulating
(coerced price) times quantity over the lines in order: the empty cart
yields 0, appending a line adds its contribution, a line whose price
fails to coerce to a number contributes 0 rather than faulting, the
specified scenario cart yields subtotal 200, and the displayed total is
the subtotal plus the fixed shipping constant 20, here 220. -/
theorem subtotal_defensive_and_scenario :
    subtotal [] = 0 ∧
    (∀ (cart : List CartLine) (l : CartLine),
      subtotal (cart ++ [l]) =
        subtotal cart + numberOr0 l.price * l.quantity.orOne) ∧
    (∀ (cart : List CartLine) (l : CartLine), jsToNumber l.price = none →
      subtotal (cart ++ [l]) = subtotal cart) ∧
    subtotal [⟨"Rose", .str "100", .num 2⟩] = 200 ∧
    orderTotal [⟨"Rose", .str "100", .num 2⟩] = 220 := by
  have happ : ∀ (cart : List CartLine) (l : CartLine),
      subtotal (cart ++ [l]) =
        subtotal cart + numberOr0 l.price * l.quantity.orOne := by
    intro cart l
    simp [subtotal, List.foldl_append]
  have h100 : jsToNumber (.str "100") = some 100 := by decide
  refine ⟨rfl, happ, fun cart l h => ?_, ?_, ?_⟩
  · rw [happ cart l]
    have hz : numberOr0 l.price = 0 := by rw [numberOr0, h]
    rw [hz, zero_mul, add_zero]
  · simp [subtotal, numberOr0, h100, Qty.orOne]
    norm_num
  · simp [orderTotal, subtotal, numberOr0, h100, Qty.orOne]
    norm_num

/-- Witness for C4: a line whose price is the non-numeric string "abc"
contributes nothing to the subtotal. -/
theorem subtotal_defensive_and_scenario_witness :
    subtotal ([] ++ [⟨"Mystery", .str "abc", .num 5⟩]) = subtotal [] :=
  subtotal_defensive_and_scenario.2.2.1 [] ⟨"Mystery", .str "abc", .num 5⟩ (by decide)

/-- C9: the subtotal engine defaults an absent quantity to 1, and the
lines the catalog appends through addCart carry no quantity field, so
each contributes exactly its coerced unit price to the subtotal. -/
theorem addCart_line_contributes_unit_price :
    (∀ (cart : List CartLine) (p : Product),
      addCart cart p = cart ++ [productToCartLine p] ∧
      (productToCartLine p).quantity = Qty.undef ∧
      subtotal (addCart cart p) = subtotal cart + numberOr0 p.price) ∧
    (∀ (cart : List CartLine) (l : CartLine), l.quantity = Qty.undef →
      subtotal (cart ++ [l]) = subtotal cart + numberOr0 l.price) := by
  constructor
  · intro cart p
    refine ⟨rfl, rfl, ?_⟩
    simp [addCart, subtotal, List.foldl_append, productToCartLine, Qty.orOne]
  · intro cart l hq
    simp [subtotal, List.foldl_append, hq, Qty.orOne]

/-- Witness for C9: a line with an absent quantity appended to the empty
cart contributes exactly its unit price. -/
theorem addCart_line_contributes_unit_price_witness :
    subtotal ([] ++ [⟨"Rose", .str "100", Qty.undef⟩]) =
      subtotal [] + numberOr0 (.str "100") :=
  addCart_line_contributes_unit_price.2 [] ⟨"Rose", .str "100", Qty.undef⟩ rfl

/-- C5: removing a notification id removes exactly the notifications
bearing that id; removal is idempotent; removing an id absent from the
active set leaves the set unchanged without faulting; and after an
enqueue of a fresh id, one removal restores the original set (so a
dismissal followed by the expiry timer firing is a no-op). -/
theorem removeNotification_exact_and_idempotent :
    ∀ (notifications : List NotificationItem) (id : ℚ),
      (∀ n, n ∈ removeNotification id notifications ↔
        (n ∈ notifications ∧ n.id ≠ id)) ∧
      removeNotification id (removeNotification id notifications) =
        removeNotification id notifications ∧
      ((∀ n ∈ notifications, n.id ≠ id) →
        removeNotification id notifications = notifications) ∧
      (∀ (message kind : String) (duration : ℚ),
        (∀ n ∈ notifications, n.id ≠ id) →
        removeNotification id
            (addNotification notifications id message kind duration) =
          notifications) := by
  intro notifications id
  have hself : ∀ (l : List NotificationItem), (∀ n ∈ l, n.id ≠ id) →
      removeNotification id l = l := by
    intro l hl
    rw [removeNotification]
    apply List.filter_eq_self.mpr
    intro a ha
    simpa [bne_iff_ne] using hl a ha
  refine ⟨fun n => ?_, ?_, hself notifications, fun message kind duration hfresh => ?_⟩
  · rw [removeNotification]
    simp [List.mem_filter, bne_iff_ne]
  · apply hself
    intro n hn
    exact ((List.mem_filter.mp hn).2 |> (by simpa [bne_iff_ne] using ·))
  · rw [addNotification, removeNotification, List.filter_append]
    have hdrop : ((⟨id, message, kind, duration⟩ : NotificationItem).id != id) = false := by
      simp
    simp only [List.filter_cons, hdrop, Bool.false_eq_true, if_false,
      List.filter_nil, List.append_nil]
    exact hself notifications hfresh

/-- Witness for C5 at a concrete active set: removing an id that is not
present is a no-op, and enqueue-then-remove of a fresh id restores the
set. -/
theorem removeNotification_exact_and_idempotent_witness :
    removeNotification 2 [⟨1, "Item removed from cart", "success", 2000⟩] =
      [⟨1, "Item removed from cart", "success", 2000⟩] ∧
    removeNotification 2
        (addNotification [⟨1, "Item removed from cart", "success", 2000⟩]
          2 "added to cart" "success" 3000) =
      [⟨1, "Item removed from cart", "success", 2000⟩] :=
  ⟨(removeNotification_exact_and_idempotent
      [⟨1, "Item removed from cart", "success", 2000⟩] 2).2.2.1 (by decide),
   (removeNotification_exact_and_idempotent
      [⟨1, "Item removed from cart", "success", 2000⟩] 2).2.2.2
      "added to cart" "success" 3000 (by decide)⟩

/-- C6: for every checkout or contact submission that passes validation,
the submitting flag is raised at the moment the remote call is issued,
the call is reached, and the flag is back down after the operation
completes — for every outcome of the call (success, server-rejected,
network failure, unexpected exception). -/
theorem submission_guard_released_on_all_paths
    (st : CheckoutState) (cst : ContactState) (o1 o2 : RemoteOutcome)
    (h1 : (validateCheckoutForm st).isValid = true)
    (h2 : (contactValidateForm cst).isValid = true) :
    ((order st o1).remoteCalled = true ∧
     (order st o1).loadingAtCall = true ∧
     (order st o1).state.isLoading = false) ∧
    ((addContact cst o2).remoteCalled = true ∧
     (addContact cst o2).loadingAtCall = true ∧
     (addContact cst o2).state.isLoading = false) := by
  constructor
  · rw [order]
    simp [h1]
  · rw [addContact]
    simp [h2]

/-- A checkout state that passes validation. -/
def validCheckoutState : CheckoutState :=
  { fName := "John", lName := "Doe", adress := "12 Rose St",
    phone := "0100 200 300", building := "5", apart := "9",
    cart := [⟨"Rose", .str "100", .num 2⟩], isLoading := false,
    browser := { storage := [], cartUpdatedCount := 0 }, notifs := [] }

/-- A contact state that passes validation. -/
def validContactState : ContactState :=
  { name := "Jane", email := "jane@mail.com", phone := "0100",
    message := "Hello", isLoading := false, notifs := [] }

/-- Witness for C6 at concrete valid submissions, taking the network
failure path for the checkout and the unexpected-exception path for the
contact form. -/
theorem submission_guard_released_on_all_paths_witness :
    ((order validCheckoutState .errorRequest).remoteCalled = true ∧
     (order validCheckoutState .errorRequest).loadingAtCall = true ∧
     (order validCheckoutState .errorRequest).state.isLoading = false) ∧
    ((addContact validContactState .errorOther).remoteCalled = true ∧
     (addContact validContactState .errorOther).loadingAtCall = true ∧
     (addContact validContactState .errorOther).state.isLoading = false) :=
  submission_guard_released_on_all_paths validCheckoutState validContactState
    .errorRequest .errorOther (by decide) (by decide)

/-- A checkout submission with an empty cart and a nonempty malformed
phone field. -/
def emptyCartBadPhoneState : CheckoutState :=
  { fName := "John", lName := "Doe", adress := "12 Rose St",
    phone := "abc", building := "5", apart := "9",
    cart := [], isLoading := false,
    browser := { storage := [], cartUpdatedCount := 0 }, notifs := [] }

/-- Counterexample to C7 as stated: with an empty cart and a malformed
phone the user is shown the phone-format error, not the explicit
empty-cart message (the phone check precedes the empty-cart check in
validateCheckoutForm); no remote call is attempted. -/
theorem empty_cart_with_malformed_phone_gets_phone_error :
    (order emptyCartBadPhoneState .errorOther).state.notifs =
      [("error", "Please enter a valid phone number")] ∧
    (∀ kv ∈ (order emptyCartBadPhoneState .errorOther).state.notifs,
      kv.2 ≠ "Your cart is empty. Please add items before checkout.") ∧
    (order emptyCartBadPhoneState .errorOther).remoteCalled = false := by
  refine ⟨by decide, by decide, by decide⟩

/-- C7 amended: every checkout submission with an empty cart is rejected
before the remote call with an error notification — the explicit
empty-cart message, except when the phone field is nonempty and fails
the format check, in which case the phone-format error is reported
first — and the form fields, the cart, the submission flag and the
browser state are all unchanged by the attempt. -/
theorem empty_cart_checkout_rejected_amended
    (st : CheckoutState) (outcome : RemoteOutcome) (hcart : st.cart = []) :
    (order st outcome).remoteCalled = false ∧
    (order st outcome).state.fName = st.fName ∧
    (order st outcome).state.lName = st.lName ∧
    (order st outcome).state.adress = st.adress ∧
    (order st outcome).state.phone = st.phone ∧
    (order st outcome).state.building = st.building ∧
    (order st outcome).state.apart = st.apart ∧
    (order st outcome).state.cart = st.cart ∧
    (order st outcome).state.isLoading = st.isLoading ∧
    (order st outcome).state.browser = st.browser ∧
    (order st outcome).state.notifs = st.notifs ++ [("error",
      if jsTrim st.phone != "" && !phoneRegexTest st.phone
      then "Please enter a valid phone number"
      else "Your cart is empty. Please add items before checkout.")] := by
  have hv : validateCheckoutForm st =
      { isValid := false, missingFields := [],
        error := some (if jsTrim st.phone != "" && !phoneRegexTest st.phone
          then "Please enter a valid phone number"
          else "Your cart is empty. Please add items before checkout.") } := by
    by_cases hp : (jsTrim st.phone != "" && !phoneRegexTest st.phone) = true
    · simp [validateCheckoutForm, hp]
    · have hp' : (jsTrim st.phone != "" && !phoneRegexTest st.phone) = false :=
        Bool.not_eq_true _ |>.mp hp
      simp [validateCheckoutForm, hp', hcart]
  rw [order, hv]
  simp

/-- Witness for the amended C7: a well-formed form with an empty cart is
rejected with the empty-cart error message and nothing else changes. -/
theorem empty_cart_checkout_rejected_amended_witness :
    (order { emptyCartBadPhoneState with phone := "0100" } (.resolved 200)).remoteCalled
        = false ∧
    (order { emptyCartBadPhoneState with phone := "0100" } (.resolved 200)).state.fName =
      ({ emptyCartBadPhoneState with phone := "0100" } : CheckoutState).fName ∧
    (order { emptyCartBadPhoneState with phone := "0100" } (.resolved 200)).state.lName =
      ({ emptyCartBadPhoneState with phone := "0100" } : CheckoutState).lName ∧
    (order { emptyCartBadPhoneState with phone := "0100" } (.resolved 200)).state.adress =
      ({ emptyCartBadPhoneState with phone := "0100" } : CheckoutState).adress ∧
    (order { emptyCartBadPhoneState with phone := "0100" } (.resolved 200)).state.phone =
      ({ emptyCartBadPhoneState with phone := "0100" } : CheckoutState).phone ∧
    (order { emptyCartBadPhoneState with phone := "0100" } (.resolved 200)).state.building =
      ({ emptyCartBadPhoneState with phone := "0100" } : CheckoutState).building ∧
    (order { emptyCartBadPhoneState with phone := "0100" } (.resolved 200)).state.apart =
      ({ emptyCartBadPhoneState with phone := "0100" } : CheckoutState).apart ∧
    (order { emptyCartBadPhoneState with phone := "0100" } (.resolved 200)).state.cart =
      ({ emptyCartBadPhoneState with phone := "0100" } : CheckoutState).cart ∧
    (order { emptyCartBadPhoneState with phone := "0100" } (.resolved 200)).state.isLoading =
      ({ emptyCartBadPhoneState with phone := "0100" } : CheckoutState).isLoading ∧
    (order { emptyCartBadPhoneState with phone := "0100" } (.resolved 200)).state.browser =
      ({ emptyCartBadPhoneState with phone := "0100" } : CheckoutState).browser ∧
    (order { emptyCartBadPhoneState with phone := "0100" } (.resolved 200)).state.notifs =
      ({ emptyCartBadPhoneState with phone := "0100" } : CheckoutState).notifs ++
        [("error",
          if jsTrim ({ emptyCartBadPhoneState with phone := "0100" } : CheckoutState).phone
                != "" &&
              !phoneRegexTest
                ({ emptyCartBadPhoneState with phone := "0100" } : CheckoutState).phone
          then "Please enter a valid phone number"
          else "Your cart is empty. Please add items before checkout.")] :=
  empty_cart_checkout_rejected_amended
    { emptyCartBadPhoneState with phone := "0100" } (.resolved 200) rfl

/-- C10: a checkout submission that passes validation and succeeds
remotely (status 200) clears the entire durable storage — every key, not
only "cart" — then empties the cart state and dispatches one cartUpdated
broadcast. -/
theorem order_success_clears_all_storage
    (st : CheckoutState) (h : (validateCheckoutForm st).isValid = true) :
    (order st (.resolved 200)).state.browser.storage = [] ∧
    (order st (.resolved 200)).state.browser.cartUpdatedCount =
      st.browser.cartUpdatedCount + 1 ∧
    (order st (.resolved 200)).state.cart = [] := by
  rw [order]
  simp [h]

/-- A valid checkout submission whose browser storage also holds an
unrelated key besides the cart. -/
def checkoutWithExtraKeys : CheckoutState :=
  { fName := "John", lName := "Doe", adress := "12 Rose St",
    phone := "0100 200 300", building := "5", apart := "9",
    cart := [⟨"Rose", .str "100", .num 2⟩], isLoading := false,
    browser := { storage := [("cart", .wellFormed (.arr [])),
                            ("theme", .malformed "dark")],
                 cartUpdatedCount := 3 },
    notifs := [] }

/-- Witness for C10: on success the storage holding both "cart" and an
unrelated "theme" key is left completely empty, the cart state is
emptied, and exactly one more broadcast is dispatched. -/
theorem order_success_clears_all_storage_witness :
    (order checkoutWithExtraKeys (.resolved 200)).state.browser.storage = [] ∧
    (order checkoutWithExtraKeys (.resolved 200)).state.browser.cartUpdatedCount =
      checkoutWithExtraKeys.browser.cartUpdatedCount + 1 ∧
    (order checkoutWithExtraKeys (.resolved 200)).state.cart = [] :=
  order_success_clears_all_storage checkoutWithExtraKeys (by decide)
